import Mathlib

/-!
# Verification of the experimentation engine (option_a_core.py / option_b_core.py)

Shallow embedding of the Monte-Carlo simulation engine (`option_b_core.py`)
and the multi-scenario comparator (`option_a_core.py`).

Modelling conventions:
* Python floats are modelled as exact rationals (`ℚ`).
* `np.random.normal(loc, scale)` is modelled as `loc + scale * z`, where the
  standard-normal draw `z : ℚ` is universally quantified: a property proved
  for all `z` holds for every possible value of the random draw.
* The external optimization oracle `create_goal_optimization_model` is out of
  scope (an external collaborator); it is modelled as an arbitrary pure
  function `Scenario → OptResult`, universally quantified.
* pandas `Series.quantile` (default `interpolation='linear'`) on a series of
  length `n` sorts the values and linearly interpolates at position
  `p * (n - 1)`; `Series.mean` is `sum / n`; `Series.std` uses `ddof = 1`.
* The trials DataFrame is `pd.DataFrame(results)` over a list of row
  dictionaries.  With zero trials this is `pd.DataFrame([])`, which has NO
  columns, so any column selection such as `df['throughput']` raises
  `KeyError`; this is modelled by `dfColumn` returning `none` on an empty
  row list and the column's values otherwise.
* The quantile results are `numpy.float64` values, so the unguarded
  divisions in the Key Insights percentages follow IEEE-754 / numpy
  semantics: dividing a nonzero value by zero yields a signed infinity (and
  `0/0` yields `NaN`) with a `RuntimeWarning` — no exception is raised.
  This is modelled by the `NpFloat` type and `npDiv`.
* `int(x)` on a Python float truncates toward zero (`pyIntTrunc`).
* `list(set(xs))` produces each distinct element of `xs` exactly once, in an
  unspecified (hash-dependent) iteration order; it is modelled by
  quantifying over every list that is a permutation of the distinct
  elements (`IsSetList`).
-/

/-- A scenario: the seven numeric parameters passed to the optimization
oracle (`option_b_core.py` sliders / `option_a_core.py` scenario inputs). -/
structure Scenario where
  heat_treatment_capacity : ℚ
  machining_capacity : ℚ
  assembly_capacity : ℚ
  demand_a : ℚ
  demand_b : ℚ
  profit_a : ℚ
  profit_b : ℚ
deriving DecidableEq, Repr

/-- The fields of an `OptimizationResult` consumed by the engine
(`result['total_throughput']` etc. in both source files). -/
structure OptResult where
  total_throughput : ℚ
  product_a : ℚ
  product_b : ℚ
  bottleneck : String
  heat_treatment_utilization : ℚ
deriving DecidableEq, Repr

/-- One trial's standard-normal draws, one per perturbed field
(`np.random.normal` is called once per field in `run_simulation`). -/
structure Draws where
  z_demand_a : ℚ
  z_demand_b : ℚ
  z_heat : ℚ
  z_mach : ℚ
  z_assy : ℚ
  z_profit_a : ℚ
  z_profit_b : ℚ
deriving DecidableEq, Repr

/-- `np.random.normal(loc, scale)` at standard-normal draw `z`:
`loc + scale * z`. -/
def normalDraw (loc scale z : ℚ) : ℚ := loc + scale * z

/-- The perturbation sampler: the body of the trial loop in
`run_simulation` (`option_b_core.py` lines 335-364).  Each field is drawn
from a normal centred on the base value with standard deviation
`base * unc / 100`, then floored with Python's `max`. -/
def sample (base : Scenario) (demand_unc capacity_unc price_unc : ℚ)
    (z : Draws) : Scenario where
  demand_a := max 0 (normalDraw base.demand_a
    (base.demand_a * demand_unc / 100) z.z_demand_a)
  demand_b := max 0 (normalDraw base.demand_b
    (base.demand_b * demand_unc / 100) z.z_demand_b)
  heat_treatment_capacity := max 50 (normalDraw base.heat_treatment_capacity
    (base.heat_treatment_capacity * capacity_unc / 100) z.z_heat)
  machining_capacity := max 50 (normalDraw base.machining_capacity
    (base.machining_capacity * capacity_unc / 100) z.z_mach)
  assembly_capacity := max 50 (normalDraw base.assembly_capacity
    (base.assembly_capacity * capacity_unc / 100) z.z_assy)
  profit_a := max 10 (normalDraw base.profit_a
    (base.profit_a * price_unc / 100) z.z_profit_a)
  profit_b := max 10 (normalDraw base.profit_b
    (base.profit_b * price_unc / 100) z.z_profit_b)

/-- The simulation runner (`run_simulation`, `option_b_core.py` lines
329-386): one oracle evaluation per trial, each trial using its own fresh
draws; the Dataset is the ordered list of collected results.  The oracle
(`create_goal_optimization_model`) is an external pure function. -/
def run_simulation (oracle : Scenario → OptResult) (base : Scenario)
    (demand_unc capacity_unc price_unc : ℚ) (zs : List Draws) :
    List OptResult :=
  zs.map (fun z => oracle (sample base demand_unc capacity_unc price_unc z))

/-- pandas `Series.mean()`: sum divided by length. -/
def seriesMean (xs : List ℚ) : ℚ := xs.sum / (xs.length : ℚ)

/-- Sum of squared deviations from the mean (the numerator of the
variance underlying pandas `Series.std()`). -/
def sumSqDev (xs : List ℚ) : ℚ :=
  (xs.map (fun x => (x - seriesMean xs) ^ 2)).sum

/-- The sample variance with `ddof = 1`, i.e. the square of pandas
`Series.std()` (the square root does not change zero-ness). -/
def sampleVar (xs : List ℚ) : ℚ := sumSqDev xs / ((xs.length : ℚ) - 1)

/-- Linear interpolation into an (already sorted) list of values at real
position `h`: the core of pandas `Series.quantile(p)` with the default
`interpolation='linear'`, evaluated at `h = p * (n - 1)`. -/
def interp (s : List ℚ) (h : ℚ) : ℚ :=
  if (⌊h⌋).toNat + 1 < s.length then
    s.getD (⌊h⌋).toNat 0 +
      (h - ((⌊h⌋).toNat : ℚ)) *
        (s.getD ((⌊h⌋).toNat + 1) 0 - s.getD (⌊h⌋).toNat 0)
  else
    s.getD (s.length - 1) 0

/-- pandas `Series.quantile(p)` (default linear interpolation): sort the
values and interpolate at position `p * (n - 1)`. -/
def quantile (xs : List ℚ) (p : ℚ) : ℚ :=
  interp (List.insertionSort (fun a b => a ≤ b) xs)
    (p * ((xs.length : ℚ) - 1))

/-- `df['throughput'].quantile(0.05)`: the "worst case" percentile of
`key_metrics` (`option_b_core.py` line 413). -/
def percentile_5 (xs : List ℚ) : ℚ := quantile xs (5 / 100)

/-- `df['throughput'].quantile(0.95)`: the "best case" percentile of
`key_metrics` (`option_b_core.py` line 414). -/
def percentile_95 (xs : List ℚ) : ℚ := quantile xs (95 / 100)

/-- One row of the confidence-interval table. -/
structure CIRow where
  conf : ℚ
  lower_bound : ℚ
  upper_bound : ℚ
deriving DecidableEq, Repr

/-- The confidence levels of the table (`option_b_core.py` line 534). -/
def confidenceLevels : List ℚ := [50, 80, 90, 95, 99]

/-- One iteration of the loop in `confidence_intervals`
(`option_b_core.py` lines 537-547): `lower = (100 - conf) / 2`,
`upper = conf + lower`, bounds via `df['throughput'].quantile`. -/
def ciRow (xs : List ℚ) (conf : ℚ) : CIRow :=
  { conf := conf
    lower_bound := quantile xs (((100 - conf) / 2) / 100)
    upper_bound := quantile xs ((conf + (100 - conf) / 2) / 100) }

/-- The confidence-interval table (`confidence_intervals`,
`option_b_core.py` lines 529-549). -/
def confidence_intervals (xs : List ℚ) : List CIRow :=
  confidenceLevels.map (ciRow xs)

/-- `(df['throughput'] >= target).mean()` (`option_b_core.py` line 510,
before the `* 100` for display): the fraction of trials with throughput
at least `target`. -/
def probExceed (xs : List ℚ) (target : ℚ) : ℚ :=
  ((xs.filter (fun x => decide (target ≤ x))).length : ℚ) / (xs.length : ℚ)

/-- `(df['throughput'] < target).mean()` (`option_b_core.py` line 511,
before the `* 100`): the fraction of trials with throughput strictly
below `target`. -/
def probBelow (xs : List ℚ) (target : ℚ) : ℚ :=
  ((xs.filter (fun x => decide (x < target))).length : ℚ) / (xs.length : ℚ)

/-- The displayed percentage `prob_exceed` of `probability_result`. -/
def prob_exceed_pct (xs : List ℚ) (target : ℚ) : ℚ := probExceed xs target * 100

/-- The displayed percentage `prob_below` of `probability_result`. -/
def prob_below_pct (xs : List ℚ) (target : ℚ) : ℚ := probBelow xs target * 100

/-- `prob_above_baseline = (df['throughput'] > base['total_throughput'])
.mean() * 100` in `insights` (`option_b_core.py` line 609): note the
STRICT comparison, unlike `probability_result`'s `>=`. -/
def prob_above_baseline_pct (xs : List ℚ) (baseThroughput : ℚ) : ℚ :=
  ((xs.filter (fun x => decide (baseThroughput < x))).length : ℚ) /
    (xs.length : ℚ) * 100

/-- Python `int(x)` on a float: truncation toward zero. -/
def pyIntTrunc (q : ℚ) : ℤ := if 0 ≤ q then ⌊q⌋ else ⌈q⌉

/-- The target resolution of `probability_result` (`option_b_core.py`
lines 506-508): `if target is None or target == 0: target =
int(base['total_throughput'])`. -/
def default_target (target : Option ℚ) (baseThroughput : ℚ) : ℚ :=
  match target with
  | none => ((pyIntTrunc baseThroughput : ℤ) : ℚ)
  | some t => if t = 0 then ((pyIntTrunc baseThroughput : ℤ) : ℚ) else t

/-- An IEEE-754 double as produced by `numpy.float64` arithmetic: a
finite value, a signed infinity, or `NaN`. -/
inductive NpFloat where
  | finite (q : ℚ) : NpFloat
  | inf : NpFloat
  | neginf : NpFloat
  | nan : NpFloat
deriving DecidableEq, Repr

/-- `numpy.float64` division: a zero divisor does NOT raise — it emits a
`RuntimeWarning` and yields a signed infinity (or `NaN` for `0/0`). -/
def npDiv (a b : ℚ) : NpFloat :=
  if b = 0 then
    if 0 < a then .inf else if a < 0 then .neginf else .nan
  else .finite (a / b)

/-- `(q / base - 1) * 100` evaluated on `numpy.float64` operands:
subtracting 1 from and multiplying by 100 a signed infinity preserves
it, and `NaN` propagates. -/
def npPctDelta (q base : ℚ) : NpFloat :=
  match npDiv q base with
  | .finite r => .finite ((r - 1) * 100)
  | .inf => .inf
  | .neginf => .neginf
  | .nan => .nan

/-- The worst-case / best-case percentage deltas of the Key Insights
panel (`option_b_core.py` lines 622-623):
`(percentile_5 / base['total_throughput'] - 1) * 100` and the same for
`percentile_95`.  The numerators are `numpy.float64` (from
`df.quantile`), so the unguarded division by a zero baseline yields a
signed infinity (or `NaN`) with a `RuntimeWarning` — it never fails. -/
def insights_risk_pcts (xs : List ℚ) (baseThroughput : ℚ) :
    NpFloat × NpFloat :=
  (npPctDelta (percentile_5 xs) baseThroughput,
    npPctDelta (percentile_95 xs) baseThroughput)

/-- The absolute deltas vs baseline of `key_metrics`
(`option_b_core.py` lines 417-419). -/
def key_metrics_deltas (xs : List ℚ) (baseThroughput : ℚ) : ℚ × ℚ × ℚ :=
  (seriesMean xs - baseThroughput,
    percentile_5 xs - baseThroughput,
    percentile_95 xs - baseThroughput)

/-- Column selection on the trials DataFrame.  The DataFrame is
`pd.DataFrame(results)` over the per-trial row dictionaries; with zero
trials it is `pd.DataFrame([])`, which has no columns at all, so any
column selection raises `KeyError` (modelled as `none`).  With at least
one trial the column exists and holds the projected field of every
row. -/
def dfColumn {α : Type} (rows : List OptResult) (proj : OptResult → α) :
    Option (List α) :=
  if rows.isEmpty then none else some (rows.map proj)

/-- `df['throughput']` over the Dataset's rows. -/
def throughput_column (rows : List OptResult) : Option (List ℚ) :=
  dfColumn rows OptResult.total_throughput

/-- `df['bottleneck']` over the Dataset's rows. -/
def bottleneck_column (rows : List OptResult) : Option (List String) :=
  dfColumn rows OptResult.bottleneck

/-- Number of trials whose bottleneck equals `b`. -/
def countOf (bs : List String) (b : String) : ℕ :=
  (bs.filter (fun x => decide (x = b))).length

/-- `df['bottleneck'].value_counts()` followed by `.index[0]` /
`.iloc[0]` (`option_b_core.py` lines 611-613): the modal bottleneck
category and its count.  `value_counts` sorts by count descending, so
`index[0]` is a category of maximal count.  The empty case cannot arise
after a successful column access (a zero-trial Dataset already fails at
`df['bottleneck']`); it is kept total with `none` for completeness. -/
def modal_bottleneck (bs : List String) : Option (String × ℕ) :=
  match bs.dedup.map (fun b => (b, countOf bs b)) with
  | [] => none
  | p :: rest =>
    some (rest.foldl (fun acc q => if acc.2 < q.2 then q else acc) p)

/-- The statistical aggregation of `key_metrics` (`option_b_core.py`
lines 403-446): mean, ddof-1 variance (the square of the reported std —
completed runs have at least 100 trials, so it is defined), the 5th and
95th percentiles, and the absolute deltas versus baseline, all computed
from `df['throughput']` — whose column access raises `KeyError` (`none`)
on a zero-trial Dataset. -/
def key_metrics_stats (rows : List OptResult) (baseThroughput : ℚ) :
    Option (ℚ × ℚ × ℚ × ℚ × (ℚ × ℚ × ℚ)) :=
  (throughput_column rows).map (fun xs =>
    (seriesMean xs, sampleVar xs, percentile_5 xs, percentile_95 xs,
      key_metrics_deltas xs baseThroughput))

/-- The confidence-interval table over the Dataset's rows
(`option_b_core.py` lines 529-549): the `df['throughput']` access raises
`KeyError` (`none`) on a zero-trial Dataset. -/
def confidence_intervals_table (rows : List OptResult) : Option (List CIRow) :=
  (throughput_column rows).map confidence_intervals

/-- The statistical aggregations of `insights` (`option_b_core.py` lines
597-635): mean, 5th/95th percentiles over `df['throughput']` and the
modal bottleneck over `df['bottleneck']` (the unguarded percentage
deltas are modelled separately by `insights_risk_pcts`).  Both column
accesses raise `KeyError` (`none`) on a zero-trial Dataset. -/
def insights_stats (rows : List OptResult) :
    Option (ℚ × ℚ × ℚ × (String × ℕ)) :=
  match throughput_column rows, bottleneck_column rows with
  | some xs, some bs =>
    match modal_bottleneck bs with
    | some m => some (seriesMean xs, percentile_5 xs, percentile_95 xs, m)
    | none => none
  | _, _ => none

/-- The bottleneck portion of the comparator's `insights`
(`option_a_core.py` lines 383-394): either a "Bottleneck Shift" listing
`unique_bottlenecks`, or a "Consistent Bottleneck" with
`unique_bottlenecks[0]`. -/
inductive BottleneckReport where
  | shift (vals : List String) : BottleneckReport
  | consistent (val : String) : BottleneckReport
deriving DecidableEq, Repr

/-- `unique_bottlenecks = list(set(bottlenecks))` (`option_a_core.py`
line 381): a Python `set` yields each distinct element exactly once, in
an unspecified, hash-dependent iteration order.  A list `uniq` is an
admissible result iff it is a permutation of the distinct elements. -/
def IsSetList (xs uniq : List String) : Prop := List.Perm uniq xs.dedup

instance (xs uniq : List String) : Decidable (IsSetList xs uniq) := by
  unfold IsSetList; infer_instance

/-- The branch on `len(unique_bottlenecks) > 1` in `insights`
(`option_a_core.py` lines 383-394). -/
def bottleneck_insight (uniq : List String) : BottleneckReport :=
  if 1 < uniq.length then .shift uniq else .consistent (uniq.headD "")

/-- Python `max` over a non-empty list (`max(throughputs)` in
`option_a_core.py`; the empty case is unreachable there). -/
def pyMax (ts : List ℚ) : ℚ :=
  match ts with
  | [] => 0
  | x :: rest => rest.foldl max x

/-- The per-card best test of `scenario1_card`/`scenario2_card`/
`scenario3_card` (`option_a_core.py` lines 249-277): a scenario is best
iff its throughput equals the exact maximum of the three. -/
def card_is_best (t t1 t2 t3 : ℚ) : Bool :=
  decide (t = max t1 (max t2 t3))

/-- `best_idx = throughputs.index(max(throughputs))` in the comparator's
`insights` (`option_a_core.py` line 355): the first index attaining the
maximum. -/
def best_idx (ts : List ℚ) : ℕ := ts.findIdx (fun t => decide (t = pyMax ts))

/-- `improvement = best_throughput - baseline_throughput`
(`option_a_core.py` line 363), with the baseline being scenario 1. -/
def improvement (ts : List ℚ) : ℚ := ts.getD (best_idx ts) 0 - ts.getD 0 0

/-- `improvement_pct = (improvement / baseline_throughput) * 100 if
baseline_throughput > 0 else 0` (`option_a_core.py` line 364): the
guarded percentage improvement. -/
def improvement_pct (ts : List ℚ) : ℚ :=
  if 0 < ts.getD 0 0 then improvement ts / ts.getD 0 0 * 100 else 0

/-- A concrete sample oracle used to instantiate universally quantified
oracle arguments in witnesses: a pure function of the scenario. -/
def witOracle : Scenario → OptResult := fun s =>
  { total_throughput := s.profit_a * s.demand_a + s.profit_b * s.demand_b
    product_a := s.demand_a
    product_b := s.demand_b
    bottleneck := "machining"
    heat_treatment_utilization := 75 }

/-- The base scenario of the spec's end-to-end example
(`heat=160, mach=200, assy=180, demand_a=50, demand_b=80,
profit_a=90, profit_b=60`). -/
def witBase : Scenario :=
  { heat_treatment_capacity := 160
    machining_capacity := 200
    assembly_capacity := 180
    demand_a := 50
    demand_b := 80
    profit_a := 90
    profit_b := 60 }

/-- A concrete draw vector for witnesses. -/
def witDraws : Draws :=
  { z_demand_a := 1
    z_demand_b := -2
    z_heat := 3
    z_mach := 0
    z_assy := 1 / 2
    z_profit_a := -1
    z_profit_b := 5 }

/-- A concrete Dataset of throughputs: twenty trials at 0 and one at 100.
Its mean `100/21` exceeds its 95th percentile `0`. -/
def cexData : List ℚ := List.replicate 20 0 ++ [100]

/-- Index access into a sorted list is monotone. -/
lemma sorted_getD_mono {s : List ℚ} (hs : List.Sorted (fun a b => a ≤ b) s)
    {i j : ℕ} (hij : i ≤ j) (hj : j < s.length) :
    s.getD i 0 ≤ s.getD j 0 := by
  have hi : i < s.length := Nat.lt_of_le_of_lt hij hj
  rw [List.getD_eq_getElem _ _ hi, List.getD_eq_getElem _ _ hj]
  have := hs.rel_get_of_le (a := ⟨i, hi⟩) (b := ⟨j, hj⟩) hij
  simpa using this

/-- Linear interpolation into a sorted list is monotone in the position. -/
lemma interp_mono {s : List ℚ} (hs : List.Sorted (fun a b => a ≤ b) s)
    (hne : s ≠ []) {h1 h2 : ℚ} (h1nn : 0 ≤ h1) (h12 : h1 ≤ h2)
    (h2top : h2 ≤ (s.length : ℚ) - 1) :
    interp s h1 ≤ interp s h2 := by
  have hN : 1 ≤ s.length := List.length_pos.2 hne
  have h2nn : 0 ≤ h2 := le_trans h1nn h12
  have hf1 : (0 : ℤ) ≤ ⌊h1⌋ := Int.floor_nonneg.2 h1nn
  have hf2 : (0 : ℤ) ≤ ⌊h2⌋ := Int.floor_nonneg.2 h2nn
  have hc1 : ((⌊h1⌋.toNat : ℤ)) = ⌊h1⌋ := Int.toNat_of_nonneg hf1
  have hc2 : ((⌊h2⌋.toNat : ℤ)) = ⌊h2⌋ := Int.toNat_of_nonneg hf2
  have hle1 : ((⌊h1⌋.toNat : ℚ)) ≤ h1 := by
    have h' := Int.floor_le h1
    rw [← hc1] at h'
    exact_mod_cast h'
  have hle2 : ((⌊h2⌋.toNat : ℚ)) ≤ h2 := by
    have h' := Int.floor_le h2
    rw [← hc2] at h'
    exact_mod_cast h'
  have hlt1 : h1 < ((⌊h1⌋.toNat : ℚ)) + 1 := by
    have h' := Int.lt_floor_add_one h1
    rw [← hc1] at h'
    exact_mod_cast h'
  have hlt2 : h2 < ((⌊h2⌋.toNat : ℚ)) + 1 := by
    have h' := Int.lt_floor_add_one h2
    rw [← hc2] at h'
    exact_mod_cast h'
  have hi12 : ⌊h1⌋.toNat ≤ ⌊h2⌋.toNat := by
    have := Int.floor_mono h12
    omega
  have hi2top : ⌊h2⌋.toNat ≤ s.length - 1 := by
    have hcast : h2 ≤ (((s.length - 1 : ℕ) : ℤ) : ℚ) := by
      push_cast [Nat.cast_sub hN]
      exact h2top
    have h1' : ⌊h2⌋ ≤ ((s.length - 1 : ℕ) : ℤ) := by
      have := Int.floor_mono hcast
      rwa [Int.floor_intCast] at this
    omega
  have hi1top : ⌊h1⌋.toNat ≤ s.length - 1 := le_trans hi12 hi2top
  by_cases hb1 : ⌊h1⌋.toNat + 1 < s.length
  · have hd1 : s.getD (⌊h1⌋.toNat) 0 ≤ s.getD (⌊h1⌋.toNat + 1) 0 :=
      sorted_getD_mono hs (Nat.le_succ _) hb1
    by_cases hb2 : ⌊h2⌋.toNat + 1 < s.length
    · have hd2 : s.getD (⌊h2⌋.toNat) 0 ≤ s.getD (⌊h2⌋.toNat + 1) 0 :=
        sorted_getD_mono hs (Nat.le_succ _) hb2
      rcases Nat.lt_or_ge (⌊h1⌋.toNat) (⌊h2⌋.toNat) with hlt | hge
      · have step1 : interp s h1 ≤ s.getD (⌊h1⌋.toNat + 1) 0 := by
          unfold interp
          rw [if_pos hb1]
          nlinarith [hd1, hlt1, hle1]
        have step2 : s.getD (⌊h1⌋.toNat + 1) 0 ≤ s.getD (⌊h2⌋.toNat) 0 :=
          sorted_getD_mono hs hlt (Nat.lt_of_succ_lt hb2)
        have step3 : s.getD (⌊h2⌋.toNat) 0 ≤ interp s h2 := by
          unfold interp
          rw [if_pos hb2]
          nlinarith [hd2, hle2]
        linarith
      · have heq : ⌊h1⌋.toNat = ⌊h2⌋.toNat := le_antisymm hi12 hge
        unfold interp
        rw [if_pos hb1, if_pos hb2, heq]
        have := sub_nonneg.2 hd2
        nlinarith [h12]
    · have step1 : interp s h1 ≤ s.getD (⌊h1⌋.toNat + 1) 0 := by
        unfold interp
        rw [if_pos hb1]
        nlinarith [hd1, hlt1, hle1]
      have step2 : s.getD (⌊h1⌋.toNat + 1) 0 ≤ s.getD (s.length - 1) 0 := by
        apply sorted_getD_mono hs (by omega) (by omega)
      have : interp s h2 = s.getD (s.length - 1) 0 := by
        unfold interp; rw [if_neg hb2]
      linarith
  · have he1 : ⌊h1⌋.toNat = s.length - 1 := by omega
    have he2 : ⌊h2⌋.toNat = s.length - 1 := by omega
    have hb2 : ¬ (⌊h2⌋.toNat + 1 < s.length) := by omega
    unfold interp
    rw [if_neg hb1, if_neg hb2]

/-- The quantile of a non-empty list is monotone in the requested
probability (the single interpolation rule shared by `key_metrics` and
`confidence_intervals`). -/
lemma quantile_mono {xs : List ℚ} (hne : xs ≠ []) {p q : ℚ}
    (hp : 0 ≤ p) (hpq : p ≤ q) (hq : q ≤ 1) :
    quantile xs p ≤ quantile xs q := by
  have hs := List.sorted_insertionSort (fun a b => a ≤ b) xs
  have hlen : (List.insertionSort (fun a b => a ≤ b) xs).length = xs.length :=
    List.length_insertionSort _ xs
  have hsne : List.insertionSort (fun a b => a ≤ b) xs ≠ [] := by
    intro h
    apply hne
    rw [h] at hlen
    exact List.length_eq_zero.mp hlen.symm
  have hL : (1 : ℚ) ≤ (xs.length : ℚ) := by
    exact_mod_cast List.length_pos.2 hne
  unfold quantile
  apply interp_mono hs hsne
  · exact mul_nonneg hp (by linarith)
  · exact mul_le_mul_of_nonneg_right hpq (by linarith)
  · rw [hlen]
    calc q * ((xs.length : ℚ) - 1) ≤ 1 * ((xs.length : ℚ) - 1) :=
          mul_le_mul_of_nonneg_right hq (by linarith)
      _ = (xs.length : ℚ) - 1 := one_mul _

/-- The counts of trials at-or-above and strictly below a target
partition the Dataset. -/
lemma length_filter_ge_add_lt (xs : List ℚ) (t : ℚ) :
    (xs.filter (fun x => decide (t ≤ x))).length +
      (xs.filter (fun x => decide (x < t))).length = xs.length := by
  induction xs with
  | nil => rfl
  | cons x xs ih =>
    by_cases h : t ≤ x
    · simp [List.filter_cons, h, not_lt.2 h]
      omega
    · simp [List.filter_cons, h, not_le.1 h]
      omega

/-- The mean of a non-empty constant list is that constant. -/
lemma seriesMean_allEq {xs : List ℚ} {c : ℚ} (hne : xs ≠ [])
    (hall : ∀ x ∈ xs, x = c) : seriesMean xs = c := by
  have hsum : xs.sum = xs.length • c := List.sum_eq_card_nsmul xs c hall
  have hlen : (xs.length : ℚ) ≠ 0 :=
    Nat.cast_ne_zero.2 (List.length_pos.2 hne).ne'
  unfold seriesMean
  rw [hsum, nsmul_eq_mul, mul_comm, mul_div_assoc, div_self hlen, mul_one]

/-- The sample variance of a constant list is zero. -/
lemma sampleVar_allEq {xs : List ℚ} {c : ℚ} (hall : ∀ x ∈ xs, x = c) :
    sampleVar xs = 0 := by
  have h0 : sumSqDev xs = 0 := by
    rcases eq_or_ne xs [] with rfl | hne
    · rfl
    · have hm := seriesMean_allEq hne hall
      unfold sumSqDev
      apply List.sum_eq_zero
      intro y hy
      rcases List.mem_map.1 hy with ⟨x, hx, rfl⟩
      rw [hall x hx, hm]
      ring
  unfold sampleVar
  rw [h0, zero_div]

/-- The modal-bottleneck lookup succeeds on every non-empty column. -/
lemma modal_bottleneck_isSome {bs : List String} (hne : bs ≠ []) :
    (modal_bottleneck bs).isSome := by
  have hd : bs.dedup ≠ [] := by
    simpa [List.dedup_eq_nil] using hne
  unfold modal_bottleneck
  rcases hdd : bs.dedup with _ | ⟨x, rest⟩
  · exact absurd hdd hd
  · simp

/-- At zero uncertainty the sampler returns the base scenario exactly,
provided the base already satisfies the feasibility floors (which every
slider-provided base does). -/
lemma sample_zero_eq {base : Scenario}
    (hda : 0 ≤ base.demand_a) (hdb : 0 ≤ base.demand_b)
    (hht : 50 ≤ base.heat_treatment_capacity)
    (hmc : 50 ≤ base.machining_capacity)
    (hac : 50 ≤ base.assembly_capacity)
    (hpa : 10 ≤ base.profit_a) (hpb : 10 ≤ base.profit_b)
    (z : Draws) : sample base 0 0 0 z = base := by
  cases base with
  | mk ht mc ac da db pa pb =>
    simp only [sample, normalDraw, mul_zero, zero_div, zero_mul, add_zero,
      Scenario.mk.injEq]
    exact ⟨max_eq_right hht, max_eq_right hmc, max_eq_right hac,
      max_eq_right hda, max_eq_right hdb, max_eq_right hpa,
      max_eq_right hpb⟩

/-- Claim C1: for every base Scenario, every nonnegative triple of
uncertainty percentages and every possible value of the underlying
normal draws, the perturbed Scenario passed to the oracle satisfies
`demand_a, demand_b ≥ 0`, all capacities `≥ 50` and both profits
`≥ 10`. -/
theorem C1_sampler_floor_invariant (base : Scenario)
    (demand_unc capacity_unc price_unc : ℚ) (z : Draws)
    (hd : 0 ≤ demand_unc) (hc : 0 ≤ capacity_unc) (hp : 0 ≤ price_unc) :
    0 ≤ (sample base demand_unc capacity_unc price_unc z).demand_a ∧
    0 ≤ (sample base demand_unc capacity_unc price_unc z).demand_b ∧
    50 ≤ (sample base demand_unc capacity_unc price_unc z).heat_treatment_capacity ∧
    50 ≤ (sample base demand_unc capacity_unc price_unc z).machining_capacity ∧
    50 ≤ (sample base demand_unc capacity_unc price_unc z).assembly_capacity ∧
    10 ≤ (sample base demand_unc capacity_unc price_unc z).profit_a ∧
    10 ≤ (sample base demand_unc capacity_unc price_unc z).profit_b := by
  refine ⟨?_, ?_, ?_, ?_, ?_, ?_, ?_⟩ <;> exact le_max_left _ _

/-- Witness for C1 at the default slider configuration. -/
theorem C1_sampler_floor_invariant_witness :
    (0 : ℚ) ≤ 20 ∧ (0 : ℚ) ≤ 10 ∧ (0 : ℚ) ≤ 15 ∧
    (0 ≤ (sample witBase 20 10 15 witDraws).demand_a ∧
      0 ≤ (sample witBase 20 10 15 witDraws).demand_b ∧
      50 ≤ (sample witBase 20 10 15 witDraws).heat_treatment_capacity ∧
      50 ≤ (sample witBase 20 10 15 witDraws).machining_capacity ∧
      50 ≤ (sample witBase 20 10 15 witDraws).assembly_capacity ∧
      10 ≤ (sample witBase 20 10 15 witDraws).profit_a ∧
      10 ≤ (sample witBase 20 10 15 witDraws).profit_b) :=
  ⟨by norm_num, by norm_num, by norm_num,
    C1_sampler_floor_invariant witBase 20 10 15 witDraws (by norm_num)
      (by norm_num) (by norm_num)⟩

/-- Claim C9: with all three uncertainty percentages at 0%, every
trial's sampled Scenario equals the base Scenario exactly (for any base
satisfying the feasibility floors, as every slider-provided base does),
so every Dataset row is the baseline evaluation and the throughput
variance is zero. -/
theorem C9_zero_uncertainty_determinism (base : Scenario)
    (oracle : Scenario → OptResult) (z : Draws) (zs : List Draws)
    (hda : 0 ≤ base.demand_a) (hdb : 0 ≤ base.demand_b)
    (hht : 50 ≤ base.heat_treatment_capacity)
    (hmc : 50 ≤ base.machining_capacity)
    (hac : 50 ≤ base.assembly_capacity)
    (hpa : 10 ≤ base.profit_a) (hpb : 10 ≤ base.profit_b) :
    sample base 0 0 0 z = base ∧
    run_simulation oracle base 0 0 0 zs = zs.map (fun _ => oracle base) ∧
    sampleVar ((run_simulation oracle base 0 0 0 zs).map
      OptResult.total_throughput) = 0 := by
  have hsamp : ∀ w : Draws, sample base 0 0 0 w = base := fun w =>
    sample_zero_eq hda hdb hht hmc hac hpa hpb w
  have hrun : run_simulation oracle base 0 0 0 zs =
      zs.map (fun _ => oracle base) := by
    simp [run_simulation, hsamp]
  refine ⟨hsamp z, hrun, ?_⟩
  rw [hrun]
  apply sampleVar_allEq (c := (oracle base).total_throughput)
  intro x hx
  rcases List.mem_map.1 hx with ⟨r, hr, rfl⟩
  rcases List.mem_map.1 hr with ⟨w, _, rfl⟩
  rfl

/-- Witness for C9 at the spec's end-to-end base scenario and a concrete
oracle and draw list. -/
theorem C9_zero_uncertainty_determinism_witness :
    ((0 : ℚ) ≤ witBase.demand_a ∧ (0 : ℚ) ≤ witBase.demand_b ∧
      (50 : ℚ) ≤ witBase.heat_treatment_capacity ∧
      (50 : ℚ) ≤ witBase.machining_capacity ∧
      (50 : ℚ) ≤ witBase.assembly_capacity ∧
      (10 : ℚ) ≤ witBase.profit_a ∧ (10 : ℚ) ≤ witBase.profit_b) ∧
    sample witBase 0 0 0 witDraws = witBase ∧
    run_simulation witOracle witBase 0 0 0 [witDraws, witDraws] =
      [witDraws, witDraws].map (fun _ => witOracle witBase) ∧
    sampleVar ((run_simulation witOracle witBase 0 0 0
      [witDraws, witDraws]).map OptResult.total_throughput) = 0 :=
  ⟨⟨by norm_num [witBase], by norm_num [witBase], by norm_num [witBase],
      by norm_num [witBase], by norm_num [witBase], by norm_num [witBase],
      by norm_num [witBase]⟩,
    C9_zero_uncertainty_determinism witBase witOracle witDraws
      [witDraws, witDraws] (by norm_num [witBase]) (by norm_num [witBase])
      (by norm_num [witBase]) (by norm_num [witBase]) (by norm_num [witBase])
      (by norm_num [witBase]) (by norm_num [witBase])⟩

/-- Claim C2 counterexample: for the concrete Dataset `cexData` (twenty
trials at 0 and one at 100), the mean is `100/21 > 0` while the
95th-percentile (linear interpolation at position `0.95 * 20 = 19` of the
sorted values) is `0`, so the claimed chain
`5th-percentile ≤ mean ≤ 95th-percentile` fails. -/
theorem C2_quantile_mean_counterexample :
    ¬ (quantile cexData (5 / 100) ≤ seriesMean cexData ∧
      seriesMean cexData ≤ quantile cexData (95 / 100)) := by
  norm_num [cexData, quantile, interp, seriesMean, List.insertionSort,
    List.orderedInsert, List.replicate,
    show Int.toNat 19 = 19 from rfl, show Int.toNat 1 = 1 from rfl]

/-- Claim C2 (amended): for every non-empty Dataset the 5th-percentile
throughput is at most the 95th-percentile throughput (the mean may lie
outside that range), and for any two confidence levels `c1 < c2` from
{50, 80, 90, 95, 99} the `c2` interval contains or equals the `c1`
interval. -/
theorem C2_quantile_monotonicity (xs : List ℚ) (hne : xs ≠ [])
    (c1 c2 : ℚ) (hc1 : c1 ∈ confidenceLevels) (hc2 : c2 ∈ confidenceLevels)
    (hlt : c1 < c2) :
    quantile xs (5 / 100) ≤ quantile xs (95 / 100) ∧
    (ciRow xs c2).lower_bound ≤ (ciRow xs c1).lower_bound ∧
    (ciRow xs c1).upper_bound ≤ (ciRow xs c2).upper_bound := by
  have hbounds : ∀ c ∈ confidenceLevels, (0 : ℚ) < c ∧ c ≤ 100 := by decide
  obtain ⟨hp1, hq1⟩ := hbounds c1 hc1
  obtain ⟨hp2, hq2⟩ := hbounds c2 hc2
  refine ⟨?_, ?_, ?_⟩
  · exact quantile_mono hne (by norm_num) (by norm_num) (by norm_num)
  · show quantile xs (((100 - c2) / 2) / 100) ≤
      quantile xs (((100 - c1) / 2) / 100)
    apply quantile_mono hne
    · linarith
    · linarith
    · linarith
  · show quantile xs ((c1 + (100 - c1) / 2) / 100) ≤
      quantile xs ((c2 + (100 - c2) / 2) / 100)
    apply quantile_mono hne
    · linarith
    · linarith
    · linarith

/-- Witness for the amended C2 at a concrete Dataset and the levels
50 < 80. -/
theorem C2_quantile_monotonicity_witness :
    ([3, 1, 2] : List ℚ) ≠ [] ∧ (50 : ℚ) ∈ confidenceLevels ∧
    (80 : ℚ) ∈ confidenceLevels ∧ (50 : ℚ) < 80 ∧
    (quantile [3, 1, 2] (5 / 100) ≤ quantile [3, 1, 2] (95 / 100) ∧
      (ciRow [3, 1, 2] 80).lower_bound ≤ (ciRow [3, 1, 2] 50).lower_bound ∧
      (ciRow [3, 1, 2] 50).upper_bound ≤ (ciRow [3, 1, 2] 80).upper_bound) :=
  ⟨by simp, by decide, by decide, by norm_num,
    C2_quantile_monotonicity [3, 1, 2] (by simp) 50 80 (by decide)
      (by decide) (by norm_num)⟩

/-- Claim C3: for every non-empty Dataset and each confidence level `c`
in {50, 80, 90, 95, 99}, the table's lower bound is the `(100-c)/2`-th
percentile and its upper bound the `100-(100-c)/2`-th percentile of
throughput, computed with the same `quantile` rule used for the
5th/95th-percentile worst/best-case estimates of `key_metrics`. -/
theorem C3_confidence_interval_bounds (xs : List ℚ) (hne : xs ≠ [])
    (c : ℚ) (hc : c ∈ confidenceLevels) :
    (ciRow xs c).lower_bound = quantile xs (((100 - c) / 2) / 100) ∧
    (ciRow xs c).upper_bound = quantile xs ((100 - (100 - c) / 2) / 100) ∧
    percentile_5 xs = quantile xs (5 / 100) ∧
    percentile_95 xs = quantile xs (95 / 100) := by
  refine ⟨rfl, ?_, rfl, rfl⟩
  have harg : (c + (100 - c) / 2) / 100 = (100 - (100 - c) / 2) / 100 := by
    ring
  show quantile xs ((c + (100 - c) / 2) / 100) =
    quantile xs ((100 - (100 - c) / 2) / 100)
  rw [harg]

/-- Witness for C3 at a concrete Dataset and the 90% level. -/
theorem C3_confidence_interval_bounds_witness :
    ([5, 9] : List ℚ) ≠ [] ∧ (90 : ℚ) ∈ confidenceLevels ∧
    ((ciRow [5, 9] 90).lower_bound = quantile [5, 9] (((100 - 90) / 2) / 100) ∧
      (ciRow [5, 9] 90).upper_bound =
        quantile [5, 9] ((100 - (100 - 90) / 2) / 100) ∧
      percentile_5 [5, 9] = quantile [5, 9] (5 / 100) ∧
      percentile_95 [5, 9] = quantile [5, 9] (95 / 100)) :=
  ⟨by simp, by decide,
    C3_confidence_interval_bounds [5, 9] (by simp) 90 (by decide)⟩

/-- Claim C4 counterexample: the target used when the user has not set
one is `int(base['total_throughput'])`, a truncation; at baseline
throughput `201/2 = 100.5` the default target is `100`, not the baseline
throughput exactly. -/
theorem C4_default_target_counterexample :
    default_target none (201 / 2) = 100 ∧ (100 : ℚ) ≠ 201 / 2 := by
  constructor
  · have hfl : ⌊(201 / 2 : ℚ)⌋ = 100 := by
      rw [Int.floor_eq_iff] <;> norm_num
    simp [default_target, pyIntTrunc, hfl]
    norm_num
  · norm_num

/-- Claim C4 (amended): for every non-empty Dataset,
`probability_exceed` (fraction of trials with throughput `≥ target`) and
`probability_below` (fraction with throughput `< target`) sum to 1; when
the target is unset it defaults to the INTEGER TRUNCATION of the
baseline's throughput, which equals the baseline throughput exactly only
when that value is an integer. -/
theorem C4_probability_complement (xs : List ℚ) (hne : xs ≠ [])
    (t b : ℚ) (k : ℤ) :
    probExceed xs t + probBelow xs t = 1 ∧
    default_target none b = ((pyIntTrunc b : ℤ) : ℚ) ∧
    default_target none ((k : ℚ)) = (k : ℚ) := by
  refine ⟨?_, rfl, ?_⟩
  · have hpart := length_filter_ge_add_lt xs t
    have hlen : (xs.length : ℚ) ≠ 0 :=
      Nat.cast_ne_zero.2 (List.length_pos.2 hne).ne'
    unfold probExceed probBelow
    rw [div_add_div_same]
    have hcast : ((xs.filter (fun x => decide (t ≤ x))).length : ℚ) +
        ((xs.filter (fun x => decide (x < t))).length : ℚ) =
        (xs.length : ℚ) := by
      exact_mod_cast congrArg (fun n : ℕ => (n : ℚ)) hpart
    rw [hcast]
    exact div_self hlen
  · unfold default_target pyIntTrunc
    split_ifs with h
    · rw [Int.floor_intCast]
    · rw [Int.ceil_intCast]

/-- Witness for the amended C4 at a concrete Dataset and targets. -/
theorem C4_probability_complement_witness :
    ([4, 6] : List ℚ) ≠ [] ∧
    (probExceed [4, 6] 5 + probBelow [4, 6] 5 = 1 ∧
      default_target none (7 / 2) = ((pyIntTrunc (7 / 2) : ℤ) : ℚ) ∧
      default_target none ((3 : ℤ) : ℚ) = ((3 : ℤ) : ℚ)) :=
  ⟨by simp, C4_probability_complement [4, 6] (by simp) 5 (7 / 2) 3⟩

/-- Claim C5 counterexample: `unique_bottlenecks = list(set(bottlenecks))`
iterates a Python set, whose order is hash-dependent: both orders of a
two-element string set occur across interpreter runs.  Under the
admissible set order `["assembly", "machining"]` the comparator's shift
report does not list the values in first-seen order
`["machining", "assembly"]`, refuting the claimed ordering. -/
theorem C5_first_seen_order_counterexample :
    ¬ (∀ uniq : List String,
      IsSetList ["machining", "machining", "assembly"] uniq →
        bottleneck_insight uniq =
          BottleneckReport.shift ["machining", "assembly"]) := by
  intro h
  have h1 : IsSetList ["machining", "machining", "assembly"]
      ["assembly", "machining"] := by decide
  have h2 := h ["assembly", "machining"] h1
  exact absurd h2 (by decide)

/-- Claim C5 (amended): for any three evaluated bottlenecks and any
admissible Python set order `uniq`, the comparator reports "consistent
bottleneck" with the single value when all three are equal, and
otherwise reports "bottleneck shift" listing each distinct observed
value exactly once — in the set's unspecified iteration order, not
necessarily first-seen order. -/
theorem C5_bottleneck_shift_detection (b1 b2 b3 : String)
    (uniq : List String) (hu : IsSetList [b1, b2, b3] uniq) :
    bottleneck_insight uniq =
      (if b1 = b2 ∧ b2 = b3 then BottleneckReport.consistent b1
        else BottleneckReport.shift uniq) := by
  by_cases hall : b1 = b2 ∧ b2 = b3
  · rw [if_pos hall]
    obtain ⟨h12, h23⟩ := hall
    subst h12
    subst h23
    have hd : ([b1, b1, b1] : List String).dedup = [b1] := by
      simp
    have huniq : uniq = [b1] := by
      have hperm := hu
      unfold IsSetList at hperm
      rw [hd] at hperm
      exact List.perm_singleton.1 hperm
    subst huniq
    simp [bottleneck_insight]
  · rw [if_neg hall]
    have hlen : uniq.length = ([b1, b2, b3] : List String).dedup.length :=
      List.Perm.length_eq hu
    have h2 : 2 ≤ ([b1, b2, b3] : List String).dedup.length := by
      by_contra hcon
      push_neg at hcon
      have hb1 : b1 ∈ ([b1, b2, b3] : List String).dedup :=
        List.mem_dedup.2 (by simp)
      have hb2 : b2 ∈ ([b1, b2, b3] : List String).dedup :=
        List.mem_dedup.2 (by simp)
      have hb3 : b3 ∈ ([b1, b2, b3] : List String).dedup :=
        List.mem_dedup.2 (by simp)
      rcases hdd : ([b1, b2, b3] : List String).dedup with _ | ⟨x, rest⟩
      · rw [hdd] at hb1
        exact absurd hb1 (List.not_mem_nil b1)
      · rw [hdd] at hcon hb1 hb2 hb3
        have hrest : rest = [] := by
          have hlc := List.length_cons x rest ▸ hcon
          simp at hlc
          exact List.length_eq_zero.1 (by omega)
        subst hrest
        simp at hb1 hb2 hb3
        exact hall ⟨hb1.trans hb2.symm, hb2.trans hb3.symm⟩
    unfold bottleneck_insight
    rw [if_pos (by omega)]

/-- Witness for the amended C5: three equal bottlenecks with the (only)
admissible set order, reported as a consistent bottleneck. -/
theorem C5_bottleneck_shift_detection_witness :
    IsSetList ["machining", "machining", "machining"] ["machining"] ∧
    bottleneck_insight ["machining"] =
      (if ("machining" : String) = "machining" ∧
          ("machining" : String) = "machining" then
        BottleneckReport.consistent "machining"
      else BottleneckReport.shift ["machining"]) :=
  ⟨by decide,
    C5_bottleneck_shift_detection "machining" "machining" "machining"
      ["machining"] (by decide)⟩

/-- Claim C6: with throughputs `[1000, 1200, 1200]` the per-card best
test marks scenario 1 not-best and scenarios 2 and 3 (their common
throughput 1200) jointly best; the insights pick `best_idx = 1` (a
non-baseline index, so the improvement insight is shown) with an
improvement of 200 absolute and 20% over baseline scenario 1. -/
theorem C6_comparator_tie_break :
    card_is_best 1000 1000 1200 1200 = false ∧
    card_is_best 1200 1000 1200 1200 = true ∧
    best_idx [1000, 1200, 1200] = 1 ∧
    improvement [1000, 1200, 1200] = 200 ∧
    improvement_pct [1000, 1200, 1200] = 20 := by
  refine ⟨?_, ?_, ?_, ?_, ?_⟩
  · norm_num [card_is_best, max_def]
  · norm_num [card_is_best, max_def]
  · norm_num [best_idx, pyMax, List.findIdx, List.findIdx.go, max_def]
  · norm_num [improvement, best_idx, pyMax, List.findIdx, List.findIdx.go,
      max_def]
  · norm_num [improvement_pct, improvement, best_idx, pyMax, List.findIdx,
      List.findIdx.go, max_def]

/-- Claim C7: the mean/5th/95th-percentile deltas versus baseline are
produced as absolute currency in `key_metrics`, and as percentages of
baseline throughput for the worst/best case in the Key Insights; no
aggregate output ever fails with a division-by-zero error at a zero
baseline: the comparator's improvement percentage is explicitly guarded
to 0, and the insights percentages are `numpy.float64` divisions that
yield a signed infinity (or `NaN`) with a `RuntimeWarning` instead of
raising. -/
theorem C7_delta_no_division_failure (xs : List ℚ) (b : ℚ) (hb : b ≠ 0)
    (ts : List ℚ) (hts : ts.getD 0 0 ≤ 0) :
    key_metrics_deltas xs b =
      (seriesMean xs - b, percentile_5 xs - b, percentile_95 xs - b) ∧
    insights_risk_pcts xs b =
      (NpFloat.finite ((percentile_5 xs / b - 1) * 100),
        NpFloat.finite ((percentile_95 xs / b - 1) * 100)) ∧
    (insights_risk_pcts xs 0).1 =
      (if 0 < percentile_5 xs then NpFloat.inf
        else if percentile_5 xs < 0 then NpFloat.neginf else NpFloat.nan) ∧
    (insights_risk_pcts xs 0).2 =
      (if 0 < percentile_95 xs then NpFloat.inf
        else if percentile_95 xs < 0 then NpFloat.neginf else NpFloat.nan) ∧
    improvement_pct ts = 0 := by
  refine ⟨rfl, ?_, ?_, ?_, ?_⟩
  · simp [insights_risk_pcts, npPctDelta, npDiv, hb]
  · show npPctDelta (percentile_5 xs) 0 = _
    unfold npPctDelta npDiv
    rw [if_pos rfl]
    split_ifs <;> rfl
  · show npPctDelta (percentile_95 xs) 0 = _
    unfold npPctDelta npDiv
    rw [if_pos rfl]
    split_ifs <;> rfl
  · unfold improvement_pct
    rw [if_neg (not_lt.2 hts)]

/-- Witness for C7 at a concrete Dataset, a nonzero baseline and a
zero-baseline comparator list. -/
theorem C7_delta_no_division_failure_witness :
    (1 : ℚ) ≠ 0 ∧ ([0, 5] : List ℚ).getD 0 0 ≤ 0 ∧
    (key_metrics_deltas [2, 4] 1 =
      (seriesMean [2, 4] - 1, percentile_5 [2, 4] - 1,
        percentile_95 [2, 4] - 1) ∧
    insights_risk_pcts [2, 4] 1 =
      (NpFloat.finite ((percentile_5 [2, 4] / 1 - 1) * 100),
        NpFloat.finite ((percentile_95 [2, 4] / 1 - 1) * 100)) ∧
    (insights_risk_pcts [2, 4] 0).1 =
      (if 0 < percentile_5 [2, 4] then NpFloat.inf
        else if percentile_5 [2, 4] < 0 then NpFloat.neginf
        else NpFloat.nan) ∧
    (insights_risk_pcts [2, 4] 0).2 =
      (if 0 < percentile_95 [2, 4] then NpFloat.inf
        else if percentile_95 [2, 4] < 0 then NpFloat.neginf
        else NpFloat.nan) ∧
    improvement_pct [0, 5] = 0) :=
  ⟨by norm_num, by simp,
    C7_delta_no_division_failure [2, 4] 1 (by norm_num) [0, 5] (by simp)⟩

/-- Claim C8: on a Dataset with zero trials every statistical
aggregation (mean, standard deviation, percentiles, confidence
intervals, bottleneck frequency) fails explicitly — `pd.DataFrame([])`
has no columns, so the `df['throughput']` / `df['bottleneck']` accesses
that begin `key_metrics`, `confidence_intervals` and `insights` raise
`KeyError` — rather than silently returning NaN or zero; on any
non-empty Dataset the same aggregations all succeed. -/
theorem C8_empty_dataset_aggregation (rows : List OptResult)
    (hne : rows ≠ []) (b : ℚ) :
    key_metrics_stats [] b = none ∧
    confidence_intervals_table [] = none ∧
    insights_stats [] = none ∧
    (key_metrics_stats rows b).isSome ∧
    (confidence_intervals_table rows).isSome ∧
    (insights_stats rows).isSome := by
  have hcol : rows.isEmpty = false := by
    simpa [List.isEmpty_iff] using hne
  have hthr : throughput_column rows =
      some (rows.map OptResult.total_throughput) := by
    simp [throughput_column, dfColumn, hcol]
  have hbot : bottleneck_column rows =
      some (rows.map OptResult.bottleneck) := by
    simp [bottleneck_column, dfColumn, hcol]
  refine ⟨rfl, rfl, rfl, ?_, ?_, ?_⟩
  · simp [key_metrics_stats, hthr]
  · simp [confidence_intervals_table, hthr]
  · have hbne : rows.map OptResult.bottleneck ≠ [] := by
      simpa using hne
    obtain ⟨m, hm⟩ := Option.isSome_iff_exists.1 (modal_bottleneck_isSome hbne)
    simp [insights_stats, hthr, hbot, hm]

/-- Witness for C8 at a concrete one-trial Dataset. -/
theorem C8_empty_dataset_aggregation_witness :
    ([witOracle witBase] : List OptResult) ≠ [] ∧
    (key_metrics_stats [] 5 = none ∧
      confidence_intervals_table [] = none ∧
      insights_stats [] = none ∧
      (key_metrics_stats [witOracle witBase] 5).isSome ∧
      (confidence_intervals_table [witOracle witBase]).isSome ∧
      (insights_stats [witOracle witBase]).isSome) :=
  ⟨by simp,
    C8_empty_dataset_aggregation [witOracle witBase] (by simp) 5⟩

/-- Claim C10: the probability calculator counts trials with throughput
`≥ target` while the Key Insights panel counts trials with throughput
strictly `> baseline`; on any Dataset whose every trial equals the
(nonnegative) baseline throughput, with the target unset, the calculator
reports 100% while the insights report a 0% chance of exceeding
baseline. -/
theorem C10_exceedance_boundary_semantics (xs : List ℚ) (b : ℚ)
    (hb : 0 ≤ b) (hne : xs ≠ []) (hall : ∀ x ∈ xs, x = b) :
    prob_exceed_pct xs (default_target none b) = 100 ∧
    prob_above_baseline_pct xs b = 0 := by
  have hlen : (xs.length : ℚ) ≠ 0 :=
    Nat.cast_ne_zero.2 (List.length_pos.2 hne).ne'
  constructor
  · have htarget : default_target none b = ((⌊b⌋ : ℤ) : ℚ) := by
      unfold default_target pyIntTrunc
      rw [if_pos hb]
    have hle : ((⌊b⌋ : ℤ) : ℚ) ≤ b := Int.floor_le b
    have hfilter :
        xs.filter (fun x => decide (default_target none b ≤ x)) = xs := by
      apply List.filter_eq_self.2
      intro a ha
      rw [hall a ha, htarget]
      simpa using hle
    unfold prob_exceed_pct probExceed
    rw [hfilter, div_self hlen, one_mul]
  · have hfilter : xs.filter (fun x => decide (b < x)) = [] := by
      apply List.filter_eq_nil_iff.2
      intro a ha
      rw [hall a ha]
      simp
    unfold prob_above_baseline_pct
    rw [hfilter]
    simp

/-- Witness for C10 at a two-trial Dataset equal to its baseline. -/
theorem C10_exceedance_boundary_semantics_witness :
    (0 : ℚ) ≤ 7 ∧ ([7, 7] : List ℚ) ≠ [] ∧ (∀ x ∈ ([7, 7] : List ℚ), x = 7) ∧
    (prob_exceed_pct [7, 7] (default_target none 7) = 100 ∧
      prob_above_baseline_pct [7, 7] 7 = 0) :=
  ⟨by norm_num, by simp, by simp,
    C10_exceedance_boundary_semantics [7, 7] 7 (by norm_num) (by simp)
      (by simp)⟩
